import Mathlib

/-!
Shallow embedding of the visual-regression comparison pipeline (src/app.py).

External capabilities (the HTTP client `requests`, the image decoder
`cv2.imdecode`, the browser engine) are injected as function parameters;
everything the repository itself computes — URL normalisation, drive-link
rewriting, the screenshot try/except/finally structure, the SSIM scorer
(decode / resize / windowed structural similarity / rounding), per-row
error containment and the index-keyed result merge — is embedded as
executable Lean definitions.  Machine floats are idealised as ℚ.
-/

namespace ImgCmp

/-- Opaque binary blobs (the contents of a `BytesIO`); identity is all the
pipeline ever inspects, content is recovered through an injected decoder. -/
abbrev Bytes := Nat

/-- Python strings, modelled as lists of characters. -/
abbrev Str := List Char

/-! ### `validate_url` (src/app.py lines 20-22) and the `urlparse` model -/

/-- Characters allowed after the first character of a URI scheme
(`urllib.parse.scheme_chars`): letters, digits, and `+`, `-`, `.`. -/
def isSchemeChar (c : Char) : Bool :=
  c.isAlpha || c.isDigit || c = '+' || c = '-' || c = '.'

/-- C0 control characters and space, which `urlsplit` strips from the
front of the URL before parsing. -/
def isC0OrSpace (c : Char) : Bool := c.val ≤ 32

/-- The unsafe bytes tab, carriage return and newline, which `urlsplit`
removes from the whole URL before parsing. -/
def isUnsafeURLByte (c : Char) : Bool := c = '\t' || c = '\r' || c = '\n'

/-- The sanitisation `urlsplit` applies before parsing: drop leading C0
control / space characters, then remove every tab, carriage return and
newline. -/
def stripURL (url : Str) : Str :=
  (url.dropWhile isC0OrSpace).filter (fun c => !isUnsafeURLByte c)

/-- Scan for the `:` ending a scheme: succeeds with the characters before
the colon and the remainder after it when every character up to the first
colon is a scheme character. -/
def schemeTake : Str → Option (Str × Str)
  | [] => none
  | c :: cs =>
    if c = ':' then some ([], cs)
    else if isSchemeChar c then (schemeTake cs).map (fun p => (c :: p.1, p.2))
    else none

/-- `urlsplit` scheme detection: a scheme is present when the sanitised
URL starts with an ASCII letter and a colon follows after zero or more
scheme characters; returns the lowercased scheme and the remainder after
the colon (an empty scheme and the input unchanged otherwise). -/
def splitScheme (url : Str) : Str × Str :=
  match url with
  | [] => ([], url)
  | c :: cs =>
    if c.isAlpha then
      match schemeTake cs with
      | some p => ((c :: p.1).map Char.toLower, p.2)
      | none => ([], url)
    else ([], url)

/-- `_splitnetloc`: when the remainder after the scheme starts with `//`,
the netloc is everything up to the next `/`, `?` or `#`. -/
def netlocOf (rest : Str) : Str :=
  match rest with
  | '/' :: '/' :: tail => tail.takeWhile (fun c => c ≠ '/' && c ≠ '?' && c ≠ '#')
  | _ => []

/-- The unbalanced-bracket check of `urlsplit`: a netloc containing `[`
without `]` (or `]` without `[`) raises `ValueError("Invalid IPv6 URL")`. -/
def invalidIPv6 (netloc : Str) : Bool :=
  (netloc.contains '[' && !netloc.contains ']')
    || (netloc.contains ']' && !netloc.contains '[')

/-- `urlparse(url)`, reduced to the parts `validate_url` observes: either
the `ValueError` raised on an unbalanced-bracket netloc, or the (possibly
empty) scheme found after sanitisation.  The deeper bracketed-host
validation newer interpreter versions add for balanced brackets is
outside the model; the behaviours modelled here are the version-stable
ones. -/
def urlparse (url : Str) : Except String Str :=
  let u := stripURL url
  let p := splitScheme u
  if invalidIPv6 (netlocOf p.2) then Except.error "Invalid IPv6 URL"
  else Except.ok p.1

def httpsPre : Str := "https://".toList

/-- `validate_url` (src/app.py line 20): prefix `https://` to the original
string when `urlparse` finds no scheme, return the original string
unchanged when it finds one, and propagate the `ValueError` that
`urlparse` may raise. -/
def validate_url (url : Str) : Except String Str :=
  match urlparse url with
  | .error e => .error e
  | .ok scheme => .ok (if scheme = [] then httpsPre ++ url else url)

/-! ### `download_image_as_bytes` (src/app.py lines 24-33) -/

/-- Does the second list start with the first? -/
def isStart : Str → Str → Bool
  | [], _ => true
  | _ :: _, [] => false
  | s :: ss, c :: cs => s = c && isStart ss cs

/-- Index of the first occurrence of `sep` in `l`, if any. -/
def findSub (sep : Str) : Str → Option Nat
  | [] => if isStart sep [] then some 0 else none
  | c :: cs => if isStart sep (c :: cs) then some 0 else (findSub sep cs).map (· + 1)

/-- Python `sep in l`. -/
def containsSub (sep l : Str) : Bool := (findSub sep l).isSome

/-- The part of `l` after the first occurrence of `sep`
(`l.split(sep)[1]` continued to the end; the caller only keeps the
segment before the next `/`, which makes the two readings agree because
`sep` here starts with `/`).  `none` models the `IndexError` raised by
`l.split(sep)[1]` when `sep` does not occur. -/
def afterFirst (sep l : Str) : Option Str :=
  (findSub sep l).map (fun k => l.drop (k + sep.length))

def gdomain : Str := "drive.google.com".toList
def dsep : Str := "/d/".toList
def ducPre : Str := "https://drive.google.com/uc?id=".toList
def ducSuf : Str := "&export=download".toList

/-- `download_image_as_bytes` (src/app.py line 24).  `get` is the injected
network capability (`requests.get` + `raise_for_status` + `.content`); it
returns `none` on any network/status error.  The whole body sits in a
`try/except` returning `None`, so the `IndexError` from the id extraction
on a drive link without `/d/` also yields `none`. -/
def download_image_as_bytes (get : Str → Option Bytes) (drive_link : Str) : Option Bytes :=
  if containsSub gdomain drive_link then
    match afterFirst dsep drive_link with
    | none => none
    | some rest =>
      let file_id := rest.takeWhile (fun c => c ≠ '/')
      if file_id = [] then get drive_link
      else get (ducPre ++ file_id ++ ducSuf)
  else get drive_link

/-! ### `capture_screenshot_as_bytes` (src/app.py lines 35-51) -/

/-- Browser-lifetime events: `webdriver.Chrome(...)` acquires an instance,
`driver.quit()` releases it. -/
inductive BrowserEvent
  | acquire
  | release
  deriving DecidableEq, Repr

/-- Outcomes of one capture call's external steps.  `launch` is
`webdriver.Chrome(...)` (src/app.py line 41, OUTSIDE the `try`); `nav` is
`driver.get`, `waitReady` the `WebDriverWait` on `body`, `shot`
`get_screenshot_as_png` (all inside the `try`). -/
structure CapEnv where
  launch : Except String Unit
  nav : Except String Unit
  waitReady : Except String Unit
  shot : Except String Bytes

/-- `capture_screenshot_as_bytes` (src/app.py line 35).  Returns the call's
result — `.error` models an exception escaping the function, `.ok none`
the caught-and-logged `return None`, `.ok (some b)` a screenshot — paired
with the browser-lifetime event trace.  The `finally: driver.quit()`
appears as the `release` event on every path after a successful launch. -/
def capture_screenshot_as_bytes (env : CapEnv) (url : Str) (mobile_view : Bool) :
    Except String (Option Bytes) × List BrowserEvent :=
  match env.launch with
  | .error e => (.error e, [])
  | .ok _ =>
    match env.nav with
    | .error _ => (.ok none, [BrowserEvent.acquire, BrowserEvent.release])
    | .ok _ =>
      match env.waitReady with
      | .error _ => (.ok none, [BrowserEvent.acquire, BrowserEvent.release])
      | .ok _ =>
        match env.shot with
        | .error _ => (.ok none, [BrowserEvent.acquire, BrowserEvent.release])
        | .ok b => (.ok (some b), [BrowserEvent.acquire, BrowserEvent.release])

/-! ### `compare_images_bytes` (src/app.py lines 53-60): the scorer -/

/-- A decoded single-channel raster image: height, width, and pixel
intensities (uint8 values read as exact rationals). -/
structure Img where
  h : Nat
  w : Nat
  px : Nat → Nat → ℚ

/-- Clamp an integer sample coordinate into `[0, hi]` (cv2 border
replication). -/
def clampIdx (v : Int) (hi : Nat) : Nat := min v.toNat hi

/-- The source coordinate sampled for destination index `k` under cv2's
`INTER_LINEAR` geometry: `(k + 0.5) * srcN/dstN - 0.5`. -/
def srcCoord (srcN dstN k : Nat) : ℚ :=
  ((k : ℚ) + 1/2) * ((srcN : ℚ) / (dstN : ℚ)) - 1/2

/-- Fractional part of a rational against its floor. -/
def fracPart (q : ℚ) : ℚ := q - (⌊q⌋ : ℚ)

/-- `cv2.resize(src, (dw, dh))` with the default bilinear interpolation:
sample the four clamped neighbours of the mapped source coordinate and
blend by the fractional offsets. -/
def resize (src : Img) (dh dw : Nat) : Img where
  h := dh
  w := dw
  px := fun i j =>
    (1 - fracPart (srcCoord src.h dh i)) * (1 - fracPart (srcCoord src.w dw j)) *
        src.px (clampIdx ⌊srcCoord src.h dh i⌋ (src.h - 1)) (clampIdx ⌊srcCoord src.w dw j⌋ (src.w - 1))
      + (1 - fracPart (srcCoord src.h dh i)) * fracPart (srcCoord src.w dw j) *
        src.px (clampIdx ⌊srcCoord src.h dh i⌋ (src.h - 1)) (clampIdx (⌊srcCoord src.w dw j⌋ + 1) (src.w - 1))
      + fracPart (srcCoord src.h dh i) * (1 - fracPart (srcCoord src.w dw j)) *
        src.px (clampIdx (⌊srcCoord src.h dh i⌋ + 1) (src.h - 1)) (clampIdx ⌊srcCoord src.w dw j⌋ (src.w - 1))
      + fracPart (srcCoord src.h dh i) * fracPart (srcCoord src.w dw j) *
        src.px (clampIdx (⌊srcCoord src.h dh i⌋ + 1) (src.h - 1)) (clampIdx (⌊srcCoord src.w dw j⌋ + 1) (src.w - 1))

/-- The 7×7 sliding window of `skimage.metrics.structural_similarity`
with its default settings (`win_size = 7`, uniform weights). -/
def win : Finset (Nat × Nat) := Finset.range 7 ×ˢ Finset.range 7

/-- Sum of a pixel functional over the window anchored at `(i, j)`. -/
def wsum (g : Nat → Nat → ℚ) (i j : Nat) : ℚ :=
  ∑ p in win, g (i + p.1) (j + p.2)

/-- Window mean (`ux` / `uy` in skimage). -/
def uMean (x : Img) (i j : Nat) : ℚ := wsum x.px i j / 49

/-- Window mean of squares (`uxx`). -/
def uSqm (x : Img) (i j : Nat) : ℚ :=
  wsum (fun a b => x.px a b * x.px a b) i j / 49

/-- Window mean of products (`uxy`). -/
def uProd (x y : Img) (i j : Nat) : ℚ :=
  wsum (fun a b => x.px a b * y.px a b) i j / 49

/-- Sample variance `vx = cov_norm * (uxx - ux*ux)` with
`cov_norm = NP/(NP-1) = 49/48`. -/
def vVar (x : Img) (i j : Nat) : ℚ :=
  (49 / 48) * (uSqm x i j - uMean x i j * uMean x i j)

/-- Sample covariance `vxy`. -/
def vCov (x y : Img) (i j : Nat) : ℚ :=
  (49 / 48) * (uProd x y i j - uMean x i j * uMean y i j)

/-- `C1 = (K1 * data_range)^2` with `K1 = 0.01`, `data_range = 255`. -/
def C1c : ℚ := (0.01 * 255) ^ 2

/-- `C2 = (K2 * data_range)^2` with `K2 = 0.03`. -/
def C2c : ℚ := (0.03 * 255) ^ 2

/-- The local structural-similarity value of the window anchored at
`(i, j)`. -/
def sMap (x y : Img) (i j : Nat) : ℚ :=
  ((2 * uMean x i j * uMean y i j + C1c) * (2 * vCov x y i j + C2c)) /
    ((uMean x i j * uMean x i j + uMean y i j * uMean y i j + C1c) *
      (vVar x i j + vVar y i j + C2c))

/-- The mean structural similarity: skimage crops `pad = 3` from each side
of the local map and averages, i.e. averages over the `(h-6) × (w-6)`
fully-in-bounds windows. -/
def mssim (x y : Img) : ℚ :=
  (∑ p in Finset.range (x.h - 6) ×ˢ Finset.range (x.w - 6), sMap x y p.1 p.2) /
    (((x.h - 6) * (x.w - 6) : Nat) : ℚ)

/-- `skimage.metrics.structural_similarity` on two uint8 rasters with
default parameters: raises when the shapes differ or the 7×7 window does
not fit, otherwise returns the mean structural similarity. -/
def structural_similarity (im1 im2 : Img) : Except String ℚ :=
  if im1.h = im2.h ∧ im1.w = im2.w then
    if 7 ≤ im1.h ∧ 7 ≤ im1.w then Except.ok (mssim im1 im2)
    else Except.error "win_size exceeds image extent."
  else Except.error "Input images must have the same dimensions."

/-- Python `round(x, 2)` idealised over ℚ: round `x * 100` to the nearest
integer, ties to even, divide back. -/
def roundHalfEven (q : ℚ) : Int :=
  if q - (⌊q⌋ : ℚ) < 1/2 then ⌊q⌋
  else if 1/2 < q - (⌊q⌋ : ℚ) then ⌊q⌋ + 1
  else if ⌊q⌋ % 2 = 0 then ⌊q⌋ else ⌊q⌋ + 1

def pyRound2 (q : ℚ) : ℚ := (roundHalfEven (q * 100) : ℚ) / 100

/-- `compare_images_bytes` (src/app.py line 53).  `decode` is the injected
`cv2.imdecode(..., IMREAD_GRAYSCALE)` capability (`none` = undecodable).
If either input fails to decode return `0.0`; otherwise resize the second
image to the first image's dimensions, run SSIM (which may raise) and
round the percentage. -/
def compare_images_bytes (decode : Bytes → Option Img) (img1_bytes img2_bytes : Bytes) :
    Except String ℚ :=
  match decode img1_bytes, decode img2_bytes with
  | some img1, some img2 =>
    (structural_similarity img1 (resize img2 img1.h img1.w)).map
      (fun s => pyRound2 (s * 100))
  | _, _ => Except.ok 0

/-! ### `process_row` (src/app.py lines 73-113) -/

/-- One input row as read from the sheet: each field access
(`row['Mobile Response Link']` etc.) can raise `KeyError`. -/
structure InputRow where
  mobileLink : Except String Str
  desktopLink : Except String Str
  websiteURL : Except String Str

instance : Inhabited InputRow :=
  ⟨⟨Except.error "KeyError", Except.error "KeyError", Except.error "KeyError"⟩⟩

/-- The external outcomes one row's processing can observe: the network
capability, the two capture calls' step outcomes, the decoder, and the
three persistence steps (`os.makedirs` and the two screenshot writes). -/
structure RowEnv where
  get : Str → Option Bytes
  capM : CapEnv
  capD : CapEnv
  decode : Bytes → Option Img
  mkdirs : Except String Unit
  writeMobile : Except String Unit
  writeDesktop : Except String Unit

/-- The body of `process_row` inside its `try` (src/app.py lines 74-110):
field accesses, the four acquisition tasks, the persistence steps, the two
comparisons.  `.error` models an exception reaching the row's `except`. -/
def process_row_body (env : RowEnv) (index : Nat) (row : InputRow) : Except String (ℚ × ℚ) :=
  match row.mobileLink with
  | .error e => .error e
  | .ok mobile_link =>
  match row.desktopLink with
  | .error e => .error e
  | .ok desktop_link =>
  match row.websiteURL with
  | .error e => .error e
  | .ok rawUrl =>
  match validate_url rawUrl with
  | .error e => .error e
  | .ok website_url =>
  let mobile_ref := download_image_as_bytes env.get mobile_link
  let desktop_ref := download_image_as_bytes env.get desktop_link
  match (capture_screenshot_as_bytes env.capM website_url true).1 with
  | .error e => .error e
  | .ok mobile_site =>
  match (capture_screenshot_as_bytes env.capD website_url false).1 with
  | .error e => .error e
  | .ok desktop_site =>
  match env.mkdirs with
  | .error e => .error e
  | .ok _ =>
  match (if mobile_site.isSome then env.writeMobile else Except.ok ()) with
  | .error e => .error e
  | .ok _ =>
  match (if desktop_site.isSome then env.writeDesktop else Except.ok ()) with
  | .error e => .error e
  | .ok _ =>
  match (match mobile_ref, mobile_site with
         | some r, some s => compare_images_bytes env.decode r s
         | _, _ => Except.ok 0) with
  | .error e => .error e
  | .ok mobile_similarity =>
  match (match desktop_ref, desktop_site with
         | some r, some s => compare_images_bytes env.decode r s
         | _, _ => Except.ok 0) with
  | .error e => .error e
  | .ok desktop_similarity => .ok (mobile_similarity, desktop_similarity)

/-- `process_row` (src/app.py line 73): the row boundary `except` turns any
exception into `(0.0, 0.0)`. -/
def process_row (env : RowEnv) (index : Nat) (row : InputRow) : ℚ × ℚ :=
  match process_row_body env index row with
  | .ok r => r
  | .error _ => (0, 0)

/-! ### The coordinator (src/app.py lines 115-129) -/

/-- The `(index, mobile, desktop)` tuples appended by the `as_completed`
loop.  `order` is the completion order of the futures — an arbitrary
permutation of the row indices. -/
def pipeline_results (envs : Nat → RowEnv) (rows : List InputRow) (order : List Nat) :
    List (Nat × (ℚ × ℚ)) :=
  order.map (fun i => (i, process_row (envs i) i (rows.getD i default)))

/-- `df.at[index, col] = value`: insert-or-overwrite keyed by row index. -/
def tblInsert (t : Nat → Option (ℚ × ℚ)) (k : Nat) (v : ℚ × ℚ) : Nat → Option (ℚ × ℚ) :=
  fun i => if i = k then some v else t i

/-- The result-merging core of `process_google_sheet` (src/app.py lines
115-129): fold the collected tuples into the output table keyed by
original index. -/
def process_google_sheet (envs : Nat → RowEnv) (rows : List InputRow) (order : List Nat) :
    Nat → Option (ℚ × ℚ) :=
  (pipeline_results envs rows order).foldl (fun t p => tblInsert t p.1 p.2) (fun _ => none)

/-! ### Concrete fixtures used by witnesses and counterexamples -/

/-- A 7×7 constant raster — the smallest image the default SSIM window fits. -/
def img7 : Img := ⟨7, 7, fun _ _ => 1⟩

/-- A 1×1 raster: decodable, but smaller than the 7×7 SSIM window. -/
def img1tiny : Img := ⟨1, 1, fun _ _ => 0⟩

/-- A decoder that decodes every blob to `img7`. -/
def decode7 : Bytes → Option Img := fun _ => some img7

/-- A decoder that decodes every blob to the 1×1 raster. -/
def decodeTiny : Bytes → Option Img := fun _ => some img1tiny

/-- A network capability that succeeds on every URL. -/
def getSome : Str → Option Bytes := fun _ => some 5

/-- A network capability that fails exactly on the mobile reference locator `"x"`. -/
def getMFail : Str → Option Bytes := fun l => if l = ['x'] then none else some 5

/-- A network capability that fails exactly on the desktop reference locator `"y"`. -/
def getDFail : Str → Option Bytes := fun l => if l = ['y'] then none else some 5

/-- A capture environment in which every browser step succeeds. -/
def capOK : CapEnv := ⟨Except.ok (), Except.ok (), Except.ok (), Except.ok 7⟩

/-- A capture environment whose browser launch itself raises. -/
def capLaunchFail : CapEnv := ⟨Except.error "SessionNotCreatedException", Except.ok (), Except.ok (), Except.ok 7⟩

/-- A row whose three field accesses all succeed. -/
def rowOK : InputRow := ⟨Except.ok ['x'], Except.ok ['y'], Except.ok ['z']⟩

/-- A row whose field accesses raise `KeyError`. -/
def rowErr : InputRow := ⟨Except.error "KeyError", Except.error "KeyError", Except.error "KeyError"⟩

/-- A row environment in which every external step succeeds. -/
def envOK : RowEnv := ⟨getSome, capOK, capOK, decode7, Except.ok (), Except.ok (), Except.ok ()⟩

/-- Same as `envOK` except the mobile reference fetch fails. -/
def envMF : RowEnv := ⟨getMFail, capOK, capOK, decode7, Except.ok (), Except.ok (), Except.ok ()⟩

/-- Same as `envOK` except the desktop reference fetch fails. -/
def envDF : RowEnv := ⟨getDFail, capOK, capOK, decode7, Except.ok (), Except.ok (), Except.ok ()⟩

/-- A drive sharing link that does not contain `/d/`. -/
def badDriveLink : Str := "https://drive.google.com/open?id=abc".toList

/-! ### Helper lemmas: SSIM of an image with itself -/

lemma win_card_q : ((win.card : Nat) : ℚ) = 49 := by norm_num [win]

lemma wsum_eq_mean (x : Img) (i j : Nat) :
    ∑ p in win, x.px (i + p.1) (j + p.2) = 49 * uMean x i j := by
  unfold uMean wsum; ring

lemma vVar_nonneg (x : Img) (i j : Nat) : 0 ≤ vVar x i j := by
  have h0 : (0 : ℚ) ≤ ∑ p in win, (x.px (i + p.1) (j + p.2) - uMean x i j) ^ 2 :=
    Finset.sum_nonneg fun p _ => sq_nonneg _
  have hterm : ∀ p ∈ win, (x.px (i + p.1) (j + p.2) - uMean x i j) ^ 2
      = x.px (i + p.1) (j + p.2) * x.px (i + p.1) (j + p.2)
        - 2 * uMean x i j * x.px (i + p.1) (j + p.2) + uMean x i j * uMean x i j := by
    intro p _; ring
  have hexp : ∑ p in win, (x.px (i + p.1) (j + p.2) - uMean x i j) ^ 2
      = wsum (fun a b => x.px a b * x.px a b) i j - 49 * (uMean x i j * uMean x i j) := by
    rw [Finset.sum_congr rfl hterm, Finset.sum_add_distrib, Finset.sum_sub_distrib,
      ← Finset.mul_sum, wsum_eq_mean, Finset.sum_const, nsmul_eq_mul, win_card_q]
    unfold wsum
    ring
  rw [hexp] at h0
  have hv : vVar x i j
      = (wsum (fun a b => x.px a b * x.px a b) i j - 49 * (uMean x i j * uMean x i j)) / 48 := by
    unfold vVar uSqm; ring
  rw [hv]
  exact div_nonneg h0 (by norm_num)

lemma sMap_self (x y : Img) (i j : Nat)
    (hpx : ∀ p ∈ win, x.px (i + p.1) (j + p.2) = y.px (i + p.1) (j + p.2)) :
    sMap x y i j = 1 := by
  have hw : wsum y.px i j = wsum x.px i j :=
    Finset.sum_congr rfl fun p hp => (hpx p hp).symm
  have hu : uMean y i j = uMean x i j := by unfold uMean; rw [hw]
  have hp : uProd x y i j = uSqm x i j := by
    unfold uProd uSqm wsum
    exact congrArg (· / 49) (Finset.sum_congr rfl fun p hp => by simp only [hpx p hp])
  have hq2 : uSqm y i j = uSqm x i j := by
    unfold uSqm wsum
    exact congrArg (· / 49) (Finset.sum_congr rfl fun p hp => by simp only [hpx p hp])
  have hv : vCov x y i j = vVar x i j := by unfold vCov vVar; rw [hp, hu]
  have hvy : vVar y i j = vVar x i j := by unfold vVar; rw [hq2, hu]
  have hA : (0 : ℚ) < uMean x i j * uMean x i j + uMean x i j * uMean x i j + C1c := by
    have := mul_self_nonneg (uMean x i j)
    have hc : (0 : ℚ) < C1c := by norm_num [C1c]
    linarith
  have hB : (0 : ℚ) < vVar x i j + vVar x i j + C2c := by
    have := vVar_nonneg x i j
    have hc : (0 : ℚ) < C2c := by norm_num [C2c]
    linarith
  unfold sMap
  rw [hu, hv, hvy]
  rw [div_eq_one_iff_eq (ne_of_gt (mul_pos hA hB))]
  ring

lemma mssim_self (x y : Img) (hh : x.h = y.h) (hw : x.w = y.w)
    (hpx : ∀ a b, a < x.h → b < x.w → x.px a b = y.px a b)
    (h7 : 7 ≤ x.h) (w7 : 7 ≤ x.w) : mssim x y = 1 := by
  unfold mssim
  have hone : ∀ p ∈ Finset.range (x.h - 6) ×ˢ Finset.range (x.w - 6), sMap x y p.1 p.2 = 1 := by
    intro p hp
    rw [Finset.mem_product, Finset.mem_range, Finset.mem_range] at hp
    apply sMap_self
    intro q hq
    rw [win, Finset.mem_product, Finset.mem_range, Finset.mem_range] at hq
    exact hpx _ _ (by omega) (by omega)
  rw [Finset.sum_congr rfl hone, Finset.sum_const, nsmul_eq_mul, mul_one,
    Finset.card_product, Finset.card_range, Finset.card_range]
  rw [div_self]
  rw [Nat.cast_ne_zero]
  exact Nat.mul_ne_zero (by omega) (by omega)

/-! ### Helper lemmas: same-size bilinear resize is the identity on pixels -/

lemma srcCoord_self (n k : Nat) (hn : 0 < n) : srcCoord n n k = (k : ℚ) := by
  unfold srcCoord
  rw [div_self (Nat.cast_ne_zero.mpr hn.ne' : ((n : ℚ) ≠ 0))]
  ring

lemma fracPart_natCast (k : Nat) : fracPart ((k : ℕ) : ℚ) = 0 := by
  unfold fracPart
  rw [Int.floor_natCast]
  simp

lemma clampIdx_natCast (i n : Nat) (h : i < n) : clampIdx ((i : ℕ) : ℤ) (n - 1) = i := by
  unfold clampIdx
  rw [Int.toNat_natCast]
  exact Nat.min_eq_left (by omega)

lemma resize_px_id (img : Img) (h0 : 0 < img.h) (w0 : 0 < img.w)
    (i j : Nat) (hi : i < img.h) (hj : j < img.w) :
    (resize img img.h img.w).px i j = img.px i j := by
  simp only [resize]
  rw [srcCoord_self _ _ h0, srcCoord_self _ _ w0, fracPart_natCast, fracPart_natCast,
    Int.floor_natCast, Int.floor_natCast, clampIdx_natCast _ _ hi, clampIdx_natCast _ _ hj]
  ring

/-- Scoring two blobs that decode to the same image of window-fitting size
gives exactly `100`. -/
lemma compare_images_bytes_eq_100 (decode : Bytes → Option Img) (b1 b2 : Bytes) (img : Img)
    (h1 : decode b1 = some img) (h2 : decode b2 = some img)
    (h7 : 7 ≤ img.h) (w7 : 7 ≤ img.w) :
    compare_images_bytes decode b1 b2 = Except.ok 100 := by
  have hres : ∀ a b, a < img.h → b < img.w → img.px a b = (resize img img.h img.w).px a b :=
    fun a b ha hb => (resize_px_id img (by omega) (by omega) a b ha hb).symm
  have hm : mssim img (resize img img.h img.w) = 1 :=
    mssim_self img (resize img img.h img.w) rfl rfl hres h7 w7
  have hr : pyRound2 ((100 : ℚ)) = 100 := by
    have hf : ⌊((10000 : ℚ))⌋ = (10000 : ℤ) := by exact_mod_cast Int.floor_intCast (α := ℚ) 10000
    unfold pyRound2 roundHalfEven
    norm_num [hf]
  unfold compare_images_bytes
  rw [h1, h2]
  show Except.map (fun s => pyRound2 (s * 100)) (structural_similarity img (resize img img.h img.w))
    = Except.ok 100
  unfold structural_similarity
  rw [if_pos ⟨rfl, rfl⟩, if_pos ⟨h7, w7⟩, hm]
  simp [Except.map, hr]

/-! ### Helper lemmas: every external step succeeding gives the two scores -/

lemma process_row_all_ok (env : RowEnv) (idx : Nat) (row : InputRow)
    (ml dl wl vurl : Str) (rm rd cm cd : Bytes) (qm qd : ℚ)
    (hml : row.mobileLink = Except.ok ml) (hdl : row.desktopLink = Except.ok dl)
    (hwl : row.websiteURL = Except.ok wl)
    (hvu : validate_url wl = Except.ok vurl)
    (hmf : download_image_as_bytes env.get ml = some rm)
    (hdf : download_image_as_bytes env.get dl = some rd)
    (hmc : (capture_screenshot_as_bytes env.capM vurl true).1 = Except.ok (some cm))
    (hdc : (capture_screenshot_as_bytes env.capD vurl false).1 = Except.ok (some cd))
    (hmk : env.mkdirs = Except.ok ()) (hwm : env.writeMobile = Except.ok ())
    (hwd : env.writeDesktop = Except.ok ())
    (hqm : compare_images_bytes env.decode rm cm = Except.ok qm)
    (hqd : compare_images_bytes env.decode rd cd = Except.ok qd) :
    process_row env idx row = (qm, qd) := by
  have hb : process_row_body env idx row = Except.ok (qm, qd) := by
    simp only [process_row_body, hml, hdl, hwl, hvu, hmf, hdf, hmc, hdc, hmk, hwm, hwd, hqm, hqd,
      Option.isSome_some, if_true]
  simp only [process_row, hb]

/-! ### Helper lemmas: merging keyed results into the table -/

lemma foldl_tblInsert_not_mem (l : List (Nat × (ℚ × ℚ))) (t0 : Nat → Option (ℚ × ℚ)) (i : Nat)
    (h : i ∉ l.map Prod.fst) :
    (l.foldl (fun t p => tblInsert t p.1 p.2) t0) i = t0 i := by
  induction l generalizing t0 with
  | nil => rfl
  | cons hd tl ih =>
    simp only [List.map_cons, List.mem_cons] at h
    push_neg at h
    rw [List.foldl_cons, ih _ h.2]
    simp [tblInsert, h.1]

lemma foldl_tblInsert_mem (l : List (Nat × (ℚ × ℚ))) (t0 : Nat → Option (ℚ × ℚ))
    (i : Nat) (a : ℚ × ℚ) (hnd : (l.map Prod.fst).Nodup) (hmem : (i, a) ∈ l) :
    (l.foldl (fun t p => tblInsert t p.1 p.2) t0) i = some a := by
  induction l generalizing t0 with
  | nil => cases hmem
  | cons hd tl ih =>
    simp only [List.map_cons, List.nodup_cons] at hnd
    rcases List.mem_cons.mp hmem with heq | htl
    · subst heq
      rw [List.foldl_cons, foldl_tblInsert_not_mem tl _ i hnd.1]
      simp [tblInsert]
    · exact List.foldl_cons _ _ ▸ ih _ hnd.2 htl

lemma pipeline_results_keys (envs : Nat → RowEnv) (rows : List InputRow) (order : List Nat) :
    (pipeline_results envs rows order).map Prod.fst = order := by
  unfold pipeline_results
  rw [List.map_map]
  have h : (Prod.fst ∘ fun i => (i, process_row (envs i) i (rows.getD i default))) = id := rfl
  rw [h, List.map_id]

/-! ### Claim theorems -/

/-- C1: for every input of N rows, the pipeline produces exactly N result
tuples, one per distinct row index with no duplicates and no omissions,
and the output table entry at index `i` holds exactly the pair returned by
`process_row` for row `i`, for every completion order of the rows. -/
theorem C1_run_total_table (envs : Nat → RowEnv) (rows : List InputRow) (order : List Nat)
    (hperm : order.Perm (List.range rows.length)) (i : Nat) :
    (pipeline_results envs rows order).length = rows.length ∧
    ((pipeline_results envs rows order).map Prod.fst).Nodup ∧
    (i < rows.length →
      process_google_sheet envs rows order i
        = some (process_row (envs i) i (rows.getD i default))) ∧
    (rows.length ≤ i → process_google_sheet envs rows order i = none) := by
  have hkeys := pipeline_results_keys envs rows order
  have hnd : order.Nodup := hperm.nodup_iff.mpr (List.nodup_range _)
  refine ⟨?_, ?_, ?_, ?_⟩
  · unfold pipeline_results
    rw [List.length_map, hperm.length_eq, List.length_range]
  · rw [hkeys]; exact hnd
  · intro hi
    unfold process_google_sheet
    apply foldl_tblInsert_mem
    · rw [hkeys]; exact hnd
    · unfold pipeline_results
      exact List.mem_map_of_mem _ (hperm.mem_iff.mpr (List.mem_range.mpr hi))
  · intro hi
    unfold process_google_sheet
    rw [foldl_tblInsert_not_mem]
    rw [hkeys]
    intro hmem
    exact absurd (List.mem_range.mp (hperm.mem_iff.mp hmem)) (by omega)

/-- An environment family for concrete pipeline runs. -/
def envsW : Nat → RowEnv := fun _ => envOK

/-- C1 witness: a two-row run whose rows complete in reversed order. -/
theorem C1_run_total_table_witness :
    (pipeline_results envsW [rowErr, rowErr] [1, 0]).length = ([rowErr, rowErr] : List InputRow).length ∧
    ((pipeline_results envsW [rowErr, rowErr] [1, 0]).map Prod.fst).Nodup ∧
    (0 < ([rowErr, rowErr] : List InputRow).length →
      process_google_sheet envsW [rowErr, rowErr] [1, 0] 0
        = some (process_row (envsW 0) 0 (([rowErr, rowErr] : List InputRow).getD 0 default))) ∧
    (([rowErr, rowErr] : List InputRow).length ≤ 0 →
      process_google_sheet envsW [rowErr, rowErr] [1, 0] 0 = none) :=
  C1_run_total_table envsW [rowErr, rowErr] [1, 0] (by decide) 0

/-- C2: any error raised anywhere while processing a row is caught at the
row boundary and converted to `(0.0, 0.0)`; a body that completes is
returned unchanged, so `process_row` is total. -/
theorem C2_row_boundary_catches_errors (env : RowEnv) (idx : Nat) (row : InputRow) :
    (∀ e, process_row_body env idx row = Except.error e → process_row env idx row = (0, 0))
    ∧ (∀ v, process_row_body env idx row = Except.ok v → process_row env idx row = v) := by
  constructor
  · intro e he; simp only [process_row, he]
  · intro v hv; simp only [process_row, hv]

/-- C2 witness: a row whose field accesses raise `KeyError` yields `(0, 0)`. -/
theorem C2_row_boundary_catches_errors_witness : process_row envOK 0 rowErr = (0, 0) :=
  (C2_row_boundary_catches_errors envOK 0 rowErr).1 "KeyError" rfl

/-- C3: when one viewport's reference fetch fails while its capture
succeeds, that viewport's similarity is the sentinel `0.0` and the other
viewport's similarity is computed normally and independently by the
scorer. -/
theorem C3_fetch_failure_isolated :
    (∀ (env : RowEnv) (idx : Nat) (row : InputRow) (ml dl wl vurl : Str) (rd cd sb : Bytes) (q : ℚ),
      row.mobileLink = Except.ok ml → row.desktopLink = Except.ok dl →
      row.websiteURL = Except.ok wl →
      validate_url wl = Except.ok vurl →
      download_image_as_bytes env.get ml = none →
      (capture_screenshot_as_bytes env.capM vurl true).1 = Except.ok (some sb) →
      download_image_as_bytes env.get dl = some rd →
      (capture_screenshot_as_bytes env.capD vurl false).1 = Except.ok (some cd) →
      env.mkdirs = Except.ok () → env.writeMobile = Except.ok () → env.writeDesktop = Except.ok () →
      compare_images_bytes env.decode rd cd = Except.ok q →
      process_row env idx row = (0, q))
    ∧ (∀ (env : RowEnv) (idx : Nat) (row : InputRow) (ml dl wl vurl : Str) (rm cm sb : Bytes) (q : ℚ),
      row.mobileLink = Except.ok ml → row.desktopLink = Except.ok dl →
      row.websiteURL = Except.ok wl →
      validate_url wl = Except.ok vurl →
      download_image_as_bytes env.get dl = none →
      (capture_screenshot_as_bytes env.capD vurl false).1 = Except.ok (some sb) →
      download_image_as_bytes env.get ml = some rm →
      (capture_screenshot_as_bytes env.capM vurl true).1 = Except.ok (some cm) →
      env.mkdirs = Except.ok () → env.writeMobile = Except.ok () → env.writeDesktop = Except.ok () →
      compare_images_bytes env.decode rm cm = Except.ok q →
      process_row env idx row = (q, 0)) := by
  constructor
  · intro env idx row ml dl wl vurl rd cd sb q hml hdl hwl hvu hmf hmc hdf hdc hmk hwm hwd hq
    have hb : process_row_body env idx row = Except.ok (0, q) := by
      simp [process_row_body, hml, hdl, hwl, hvu, hmf, hmc, hdf, hdc, hmk, hwm, hwd, hq]
    simp only [process_row, hb]
  · intro env idx row ml dl wl vurl rm cm sb q hml hdl hwl hvu hdf hdc hmf hmc hmk hwm hwd hq
    have hb : process_row_body env idx row = Except.ok (q, 0) := by
      simp [process_row_body, hml, hdl, hwl, hvu, hdf, hdc, hmf, hmc, hmk, hwm, hwd, hq]
    simp only [process_row, hb]

/-- C3 witness: the mobile (resp. desktop) fetch fails, everything else
succeeds, and the surviving viewport scores 100. -/
theorem C3_fetch_failure_isolated_witness :
    process_row envMF 0 rowOK = (0, 100) ∧ process_row envDF 0 rowOK = (100, 0) := by
  have hq : compare_images_bytes decode7 5 7 = Except.ok 100 :=
    compare_images_bytes_eq_100 decode7 5 7 img7 rfl rfl (Nat.le_refl 7) (Nat.le_refl 7)
  exact ⟨C3_fetch_failure_isolated.1 envMF 0 rowOK ['x'] ['y'] ['z'] (httpsPre ++ ['z']) 5 7 7 100
      rfl rfl rfl rfl rfl rfl rfl rfl rfl rfl rfl hq,
    C3_fetch_failure_isolated.2 envDF 0 rowOK ['x'] ['y'] ['z'] (httpsPre ++ ['z']) 5 7 7 100
      rfl rfl rfl rfl rfl rfl rfl rfl rfl rfl rfl hq⟩

/-- C4 counterexample: a browser-launch error is NOT returned by the
capture operation as a Failure value — at this input the call's result is
an escaping exception, not the Failure value `none`. -/
theorem C4_launch_error_escapes_counterexample :
    (capture_screenshot_as_bytes capLaunchFail [] true).1
      = Except.error "SessionNotCreatedException"
    ∧ (capture_screenshot_as_bytes capLaunchFail [] true).1 ≠ Except.ok none := by
  refine ⟨rfl, fun h => ?_⟩
  rw [show (capture_screenshot_as_bytes capLaunchFail [] true).1
      = Except.error "SessionNotCreatedException" from rfl] at h
  exact Except.noConfusion h

/-- C4 amended: render failures occurring after a successful browser
launch are returned by capture as a Failure value, never an exception; a
browser-launch error escapes capture as an exception and is caught at the
row boundary, degrading the entire row — both viewports — to `(0.0, 0.0)`. -/
theorem C4_amended_render_failure_containment :
    (∀ (env : CapEnv) (url : Str) (m : Bool), env.launch = Except.ok () →
      ∃ r, (capture_screenshot_as_bytes env url m).1 = Except.ok r)
    ∧ (∀ (env : CapEnv) (url : Str) (m : Bool) (e : String), env.launch = Except.error e →
      (capture_screenshot_as_bytes env url m).1 = Except.error e)
    ∧ (∀ (env : RowEnv) (idx : Nat) (row : InputRow) (ml dl wl : Str) (e : String),
      row.mobileLink = Except.ok ml → row.desktopLink = Except.ok dl →
      row.websiteURL = Except.ok wl → env.capM.launch = Except.error e →
      process_row env idx row = (0, 0)) := by
  refine ⟨?_, ?_, ?_⟩
  · intro env url m hl
    obtain ⟨l, n, w, s⟩ := env
    cases l with
    | error e => exact Except.noConfusion hl
    | ok u =>
      cases n with
      | error e => exact ⟨none, rfl⟩
      | ok u2 =>
        cases w with
        | error e => exact ⟨none, rfl⟩
        | ok u3 =>
          cases s with
          | error e => exact ⟨none, rfl⟩
          | ok b => exact ⟨some b, rfl⟩
  · intro env url m e hl
    obtain ⟨l, n, w, s⟩ := env
    cases l with
    | ok u => exact Except.noConfusion hl
    | error e2 =>
      injection hl with he
      subst he
      rfl
  · intro env idx row ml dl wl e hml hdl hwl hcl
    have hc : ∀ u, (capture_screenshot_as_bytes env.capM u true).1 = Except.error e := by
      intro u
      unfold capture_screenshot_as_bytes
      rw [hcl]
    cases hv : validate_url wl with
    | error e2 =>
      have hb : process_row_body env idx row = Except.error e2 := by
        simp only [process_row_body, hml, hdl, hwl, hv]
      simp only [process_row, hb]
    | ok vurl =>
      have hb : process_row_body env idx row = Except.error e := by
        simp only [process_row_body, hml, hdl, hwl, hv, hc vurl]
      simp only [process_row, hb]

/-- A row environment whose mobile capture fails at browser launch. -/
def envCLF : RowEnv := { envOK with capM := capLaunchFail }

/-- C4 witness: a concrete launch error escapes capture and the whole row
degrades to `(0, 0)`. -/
theorem C4_amended_render_failure_containment_witness :
    (capture_screenshot_as_bytes capLaunchFail [] false).1
      = Except.error "SessionNotCreatedException"
    ∧ process_row envCLF 0 rowOK = (0, 0) :=
  ⟨C4_amended_render_failure_containment.2.1 capLaunchFail [] false
      "SessionNotCreatedException" rfl,
    C4_amended_render_failure_containment.2.2 envCLF 0 rowOK ['x'] ['y'] ['z']
      "SessionNotCreatedException" rfl rfl rfl rfl⟩

/-- A row environment identical to `envOK` except that persisting the
mobile screenshot fails. -/
def envWB : RowEnv := { envOK with writeMobile := Except.error "disk full" }

/-- C5 counterexample: a persistence failure DOES change the row's
similarity scores — with the write failing the row yields `(0, 0)`, while
the identical environment with the write succeeding yields `(100, 100)`. -/
theorem C5_write_failure_changes_scores_counterexample :
    process_row envWB 0 rowOK = (0, 0)
    ∧ process_row envOK 0 rowOK = (100, 100)
    ∧ (((0 : ℚ), (0 : ℚ)) : ℚ × ℚ) ≠ ((100 : ℚ), (100 : ℚ)) := by
  have hq : compare_images_bytes decode7 5 7 = Except.ok 100 :=
    compare_images_bytes_eq_100 decode7 5 7 img7 rfl rfl (Nat.le_refl 7) (Nat.le_refl 7)
  refine ⟨rfl, ?_, by decide⟩
  exact process_row_all_ok envOK 0 rowOK ['x'] ['y'] ['z'] (httpsPre ++ ['z']) 5 5 7 7 100 100
    rfl rfl rfl rfl rfl rfl rfl rfl rfl rfl rfl hq hq

/-- C5 amended: a failure while persisting a successfully captured
screenshot raises an exception that is caught at the row boundary — the
row's similarity scores are not computed and the row's result becomes
`(0.0, 0.0)`; the failure does not abort the pipeline. -/
theorem C5_amended_write_failure_zeroes_row (env : RowEnv) (idx : Nat) (row : InputRow)
    (ml dl wl vurl : Str) (sb : Bytes) (dOpt : Option Bytes) (e : String)
    (hml : row.mobileLink = Except.ok ml) (hdl : row.desktopLink = Except.ok dl)
    (hwl : row.websiteURL = Except.ok wl)
    (hvu : validate_url wl = Except.ok vurl)
    (hmc : (capture_screenshot_as_bytes env.capM vurl true).1 = Except.ok (some sb))
    (hdc : (capture_screenshot_as_bytes env.capD vurl false).1 = Except.ok dOpt)
    (hmk : env.mkdirs = Except.ok ())
    (hwm : env.writeMobile = Except.error e) :
    process_row env idx row = (0, 0) := by
  have hb : process_row_body env idx row = Except.error e := by
    simp [process_row_body, hml, hdl, hwl, hvu, hmc, hdc, hmk, hwm]
  simp only [process_row, hb]

/-- C5 witness: the concrete failing-write environment yields `(0, 0)`. -/
theorem C5_amended_write_failure_zeroes_row_witness : process_row envWB 0 rowOK = (0, 0) :=
  C5_amended_write_failure_zeroes_row envWB 0 rowOK ['x'] ['y'] ['z'] (httpsPre ++ ['z'])
    7 (some 7) "disk full" rfl rfl rfl rfl rfl rfl rfl rfl

/-- C6: if either input to the scorer fails to decode as a grayscale
raster image, the scorer returns exactly `0.0` rather than raising. -/
theorem C6_undecodable_scores_zero (decode : Bytes → Option Img) (b1 b2 : Bytes)
    (h : decode b1 = none ∨ decode b2 = none) :
    compare_images_bytes decode b1 b2 = Except.ok 0 := by
  unfold compare_images_bytes
  rcases h with h | h
  · rw [h]
  · cases hb : decode b1 with
    | none => rw [h]
    | some i => rw [h]

/-- C6 witness: a decoder that decodes nothing yields score `0`. -/
theorem C6_undecodable_scores_zero_witness :
    compare_images_bytes (fun _ => none) 0 0 = Except.ok 0 :=
  C6_undecodable_scores_zero (fun _ => none) 0 0 (Or.inl rfl)

/-- C7 counterexample: a decodable 1×1 image scored against itself does
not yield 100 — the SSIM window does not fit and the scorer raises. -/
theorem C7_small_selfscore_counterexample :
    compare_images_bytes decodeTiny 0 0 = Except.error "win_size exceeds image extent."
    ∧ compare_images_bytes decodeTiny 0 0 ≠ Except.ok 100 := by
  refine ⟨rfl, fun h => ?_⟩
  rw [show compare_images_bytes decodeTiny 0 0
      = Except.error "win_size exceeds image extent." from rfl] at h
  exact Except.noConfusion h

/-- C7 amended: for every decodable image at least 7 pixels in each
dimension (so the default SSIM window fits), scoring the image against
itself yields exactly `100.0`. -/
theorem C7_amended_selfscore_100 (decode : Bytes → Option Img) (b : Bytes) (img : Img)
    (hdec : decode b = some img) (h7 : 7 ≤ img.h) (w7 : 7 ≤ img.w) :
    compare_images_bytes decode b b = Except.ok 100 :=
  compare_images_bytes_eq_100 decode b b img hdec hdec h7 w7

/-- C7 witness: a 7×7 image scored against itself gives `100`. -/
theorem C7_amended_selfscore_100_witness : compare_images_bytes decode7 3 3 = Except.ok 100 :=
  C7_amended_selfscore_100 decode7 3 img7 rfl (Nat.le_refl 7) (Nat.le_refl 7)

/-- C8 counterexample: normalization does not always return a string — at
`"https://[abc"` the `urlparse` call raises `ValueError("Invalid IPv6
URL")` (unbalanced bracket in the netloc), so `validate_url` propagates
an exception instead of returning the string unchanged or prefixed. -/
theorem C8_invalid_url_counterexample :
    validate_url ("https://[abc".toList) = Except.error "Invalid IPv6 URL"
    ∧ validate_url ("https://[abc".toList) ≠ Except.ok ("https://[abc".toList)
    ∧ validate_url ("https://[abc".toList)
        ≠ Except.ok (httpsPre ++ "https://[abc".toList) := by
  refine ⟨rfl, fun h => ?_, fun h => ?_⟩
  · rw [show validate_url ("https://[abc".toList) = Except.error "Invalid IPv6 URL"
        from rfl] at h
    exact Except.noConfusion h
  · rw [show validate_url ("https://[abc".toList) = Except.error "Invalid IPv6 URL"
        from rfl] at h
    exact Except.noConfusion h

/-- C8 amended: when `urlparse` raises (unbalanced-bracket netloc), the
normalization propagates the exception; otherwise it returns the string
prefixed with `https://` exactly when `urlparse` — which first strips
tabs, carriage returns, newlines and leading control/space characters —
finds no URI scheme, and returns the string unchanged exactly when it
finds one. -/
theorem C8_amended_validate_url (url : Str) :
    (∀ e, urlparse url = Except.error e → validate_url url = Except.error e)
    ∧ (validate_url url = Except.ok (httpsPre ++ url) ↔ urlparse url = Except.ok [])
    ∧ (validate_url url = Except.ok url
        ↔ ∃ s, s ≠ [] ∧ urlparse url = Except.ok s) := by
  have h8 : httpsPre.length = 8 := rfl
  have hne : httpsPre ++ url ≠ url := by
    intro h
    have hlen := congrArg List.length h
    rw [List.length_append, h8] at hlen
    omega
  cases hp : urlparse url with
  | error e =>
    have hv : validate_url url = Except.error e := by
      unfold validate_url
      rw [hp]
    refine ⟨fun e2 he2 => ?_, by simp [hv], by simp [hv]⟩
    injection he2 with h2
    rw [hv, h2]
  | ok s =>
    have hv : validate_url url = Except.ok (if s = [] then httpsPre ++ url else url) := by
      unfold validate_url
      rw [hp]
    by_cases hs : s = []
    · subst hs
      rw [if_pos rfl] at hv
      refine ⟨fun e2 he2 => Except.noConfusion he2, by simp [hv], ?_⟩
      constructor
      · intro h
        rw [hv] at h
        injection h with h2
        exact absurd h2 hne
      · rintro ⟨s2, hs2, h2⟩
        injection h2 with h3
        exact absurd h3.symm hs2
    · rw [if_neg hs] at hv
      refine ⟨fun e2 he2 => Except.noConfusion he2, ?_, ?_⟩
      · constructor
        · intro h
          rw [hv] at h
          injection h with h2
          exact absurd h2.symm hne
        · intro h
          injection h with h2
          exact absurd h2 hs
      · exact ⟨fun h => ⟨s, hs, rfl⟩, fun h => hv⟩

/-- C8 witness: a schemeless host is prefixed, and a URL whose scheme is
only visible after tab removal is returned unchanged. -/
theorem C8_amended_validate_url_witness :
    validate_url ("example.com".toList) = Except.ok (httpsPre ++ "example.com".toList)
    ∧ validate_url ("http\t://x".toList) = Except.ok ("http\t://x".toList) :=
  ⟨(C8_amended_validate_url ("example.com".toList)).2.1.mpr rfl,
    (C8_amended_validate_url ("http\t://x".toList)).2.2.mpr
      ⟨"http".toList, by decide, rfl⟩⟩

/-- C9 counterexample: a source containing `drive.google.com` but no
`/d/` segment IS turned into a Failure by the rewriting step itself — the
injected network capability succeeds on every URL, yet the fetch returns
Failure because `split("/d/")[1]` raises `IndexError`. -/
theorem C9_rewrite_failure_counterexample :
    download_image_as_bytes getSome badDriveLink = none
    ∧ getSome badDriveLink = some 5 := ⟨rfl, rfl⟩

/-- C9 amended: a source without `drive.google.com` is used verbatim; a
source containing `drive.google.com` and `/d/` has the segment after the
first `/d/` (up to the next `/`) extracted as the file id, and the fetch
downloads the rewritten direct-download locator (or the source verbatim
when that segment is empty); a source containing `drive.google.com` but
no `/d/` makes the rewriting step itself raise, so the fetch returns
Failure regardless of the network. -/
theorem C9_amended_rewrite_cases (get : Str → Option Bytes) (link : Str) :
    (containsSub gdomain link = false → download_image_as_bytes get link = get link)
    ∧ (containsSub gdomain link = true → afterFirst dsep link = none →
      download_image_as_bytes get link = none)
    ∧ (∀ rest, containsSub gdomain link = true → afterFirst dsep link = some rest →
      download_image_as_bytes get link
        = get (if rest.takeWhile (fun c => c ≠ '/') = [] then link
            else ducPre ++ rest.takeWhile (fun c => c ≠ '/') ++ ducSuf)) := by
  refine ⟨fun h => ?_, fun h1 h2 => ?_, fun rest h1 h2 => ?_⟩
  · simp only [download_image_as_bytes, h]
    rfl
  · simp only [download_image_as_bytes, h1, h2]
    rfl
  · simp only [download_image_as_bytes, h1, h2]
    by_cases hf : rest.takeWhile (fun c => c ≠ '/') = []
    · rw [if_pos hf, if_pos hf]
      simp
    · rw [if_neg hf, if_neg hf]
      simp

/-- C9 witness: a well-formed sharing link is rewritten to the
direct-download locator carrying the extracted id. -/
theorem C9_amended_rewrite_cases_witness :
    download_image_as_bytes getSome ("https://drive.google.com/file/d/ABC/view".toList)
      = getSome (ducPre ++ "ABC".toList ++ ducSuf) := by
  have h := (C9_amended_rewrite_cases getSome
      ("https://drive.google.com/file/d/ABC/view".toList)).2.2 ("ABC/view".toList) rfl rfl
  rw [h]
  rfl

/-- C10: every capture invocation that acquires a browser instance
releases it on every exit path — the event trace is exactly one acquire
followed by one release. -/
theorem C10_browser_always_released (env : CapEnv) (url : Str) (m : Bool)
    (hacq : BrowserEvent.acquire ∈ (capture_screenshot_as_bytes env url m).2) :
    (capture_screenshot_as_bytes env url m).2
      = [BrowserEvent.acquire, BrowserEvent.release] := by
  obtain ⟨l, n, w, s⟩ := env
  cases l with
  | error e => simp [capture_screenshot_as_bytes] at hacq
  | ok u => cases n <;> cases w <;> cases s <;> rfl

/-- C10 witness: a successful capture acquires and releases the browser. -/
theorem C10_browser_always_released_witness :
    (capture_screenshot_as_bytes capOK [] true).2
      = [BrowserEvent.acquire, BrowserEvent.release] :=
  C10_browser_always_released capOK [] true (by decide)

end ImgCmp
